import Mathlib

/-
Verification development for the ScoutVision analytical engine.

The engine is embedded shallowly: JavaScript numbers are modelled by exact
rationals (ℚ), except where the code takes a square root, which is modelled
by Real.sqrt on ℝ.  JavaScript's Math.round rounds half toward positive
infinity, exactly as Mathlib's round.  Array.prototype.sort is a stable sort,
so it is modelled by the stable List.insertionSort with the relation induced
by the comparator; stable sorting results are unique, so the choice of stable
sort does not matter.  Missing record keys read through a lookup with a
default, matching the pervasive idiom of reading an absent numeric field
as 0 with a truthiness fallback.
-/

namespace ScoutVision

/-- JavaScript's toFixed(2) rounds a value to two decimal places. -/
def toFixed2 (q : ℚ) : ℚ := (round (q * 100) : ℚ) / 100

/-- JavaScript's toFixed(3) rounds a value to three decimal places. -/
def toFixed3 (q : ℚ) : ℚ := (round (q * 1000) : ℚ) / 1000

/-- A player row: the identifying string columns plus the open-ended
mapping from numeric column names to values. -/
structure PlayerData where
  Player : String
  Team : String
  Position : String
  League : String
  metrics : List (String × ℚ)
deriving DecidableEq

/-- Reading a numeric column of a player row: an absent key reads as 0. -/
def getMetricValue (p : PlayerData) (key : String) : ℚ :=
  (p.metrics.lookup key).getD 0

/-- Bounds of a metric over a cohort.  The standard deviation involves a
square root and therefore lives in ℝ. -/
structure MetricBounds where
  min : ℚ
  max : ℚ
  mean : ℚ
  stdDev : ℝ

namespace PlayerService

/-- Keys excluded from statistical computations. -/
def EXCLUDED_METRIC_KEYS : List String :=
  ["Player", "Team", "Team within selected timeframe", "Position",
   "Birth country", "Passport country", "Foot", "On loan", "League",
   "Contract expires", "Main Position", "Index"]

/-- Profile keys, not performance metrics. -/
def PROFILE_KEYS : List String :=
  ["Age", "Market value", "Height", "Weight",
   "Matches played", "Minutes played"]

/-- Numeric metric keys of a dataset, read off the first row, filtered and
sorted alphabetically. -/
def extractNumericMetricKeys (data : List PlayerData) : List String :=
  match data with
  | [] => []
  | sample :: _ =>
      List.insertionSort (· ≤ ·)
        ((sample.metrics.map Prod.fst).filter
          (fun key => !(EXCLUDED_METRIC_KEYS.contains key)
                      && !(PROFILE_KEYS.contains key)))

/-- Distinct non-empty leagues, sorted. -/
def extractLeagues (data : List PlayerData) : List String :=
  List.insertionSort (· ≤ ·) (((data.map (·.League)).filter (· ≠ "")).dedup)

/-- Distinct non-empty team names, sorted. -/
def extractTeams (data : List PlayerData) : List String :=
  List.insertionSort (· ≤ ·) (((data.map (·.Team)).filter (· ≠ "")).dedup)

/-- Distinct trimmed position codes, split on commas, sorted. -/
def extractPositions (data : List PlayerData) : List String :=
  List.insertionSort (· ≤ ·)
    ((data.flatMap (fun p =>
        if p.Position ≠ "" then (p.Position.splitOn ",").map (·.trim) else [])).dedup)

/-- The values of a metric over a cohort: rows where the key is absent (or
non-numeric) contribute nothing. -/
def metricValues (data : List PlayerData) (metricKey : String) : List ℚ :=
  data.filterMap (fun p => p.metrics.lookup metricKey)

/-- Minimum of a list of values, folding from the head. -/
def listMin : List ℚ → ℚ
  | [] => 0
  | v :: vs => vs.foldl min v

/-- Maximum of a list of values, folding from the head. -/
def listMax : List ℚ → ℚ
  | [] => 0
  | v :: vs => vs.foldl max v

/-- Mean of a list of values. -/
def listMean (l : List ℚ) : ℚ := l.sum / l.length

/-- Population variance of a list of values. -/
def listVariance (l : List ℚ) : ℚ :=
  ((l.map (fun v => (v - listMean l) ^ 2)).sum) / l.length

/-- Bounds (min, max, mean, stdDev) of a metric over a cohort.  An empty
value list yields the neutral default; max equal to min is widened to
min + 1; a zero standard deviation falls back to 1 through the truthiness
of Math.sqrt(variance) applied by the source. -/
noncomputable def calculateMetricBounds (data : List PlayerData) (metricKey : String) :
    MetricBounds :=
  let values := metricValues data metricKey
  if values = [] then
    { min := 0, max := 1, mean := 0, stdDev := 1 }
  else
    let mn := listMin values
    let mx := listMax values
    let s := Real.sqrt ((listVariance values : ℚ) : ℝ)
    { min := mn,
      max := if mx = mn then mn + 1 else mx,
      mean := listMean values,
      stdDev := if s = 0 then 1 else s }

/-- Bounds of every numeric metric of a dataset. -/
noncomputable def calculateAllMetricBounds (data : List PlayerData) :
    List (String × MetricBounds) :=
  (extractNumericMetricKeys data).map (fun key => (key, calculateMetricBounds data key))

/-- Normalization of a value into the unit interval against bounds. -/
def normalizeValue (value : ℚ) (bounds : MetricBounds) : ℚ :=
  let range := bounds.max - bounds.min
  if range = 0 then 1 / 2
  else max 0 (min 1 ((value - bounds.min) / range))

/-- Z-score of a value against bounds, 0 when the deviation is 0. -/
noncomputable def calculateZScore (value : ℚ) (bounds : MetricBounds) : ℝ :=
  if bounds.stdDev = 0 then 0 else ((value : ℝ) - (bounds.mean : ℝ)) / bounds.stdDev

/-- Mid-rank percentile of a value inside a distribution, rounded and
clamped; an empty distribution reads as the 50th percentile. -/
def calculatePercentile (value : ℚ) (allValues : List ℚ) : ℤ :=
  if allValues = [] then 50
  else
    let sorted := List.insertionSort (· ≤ ·) allValues
    let countBelow := (sorted.filter (fun v => v < value)).length
    let countEqual := (sorted.filter (fun v => v = value)).length
    let percentile := (((countBelow : ℚ) + (1 / 2) * countEqual) / sorted.length) * 100
    round (max 0 (min 100 percentile))

end PlayerService

namespace ScoringUtils

open PlayerService

/-- A named tactical role: a positionally-scoped weighted set of metrics. -/
structure RoleDefinition where
  name : String
  category : String
  positions : List String
  metrics : List (String × ℚ)
  description : String
deriving DecidableEq

/-- The fixed table of tactical role definitions. -/
def ROLE_DEFINITIONS : List (String × RoleDefinition) := [
  ("Shot-Stopping Goalkeeper",
   { name := "Shot-Stopping Goalkeeper", category := "goalkeeper",
     positions := ["GK"],
     metrics := [("Save rate, %", (30/100 : ℚ)),
      ("Prevented goals per 90", (25/100 : ℚ)),
      ("Clean sheets", (15/100 : ℚ)),
      ("Aerial duels won, %", (10/100 : ℚ)),
      ("Conceded goals per 90", (-(10/100) : ℚ)),
      ("Shots against per 90", (5/100 : ℚ)),
      ("xG against per 90", (-(5/100) : ℚ))],
     description := "Gardien spécialisé dans les arrêts réflexes" }),
  ("Sweeper Keeper",
   { name := "Sweeper Keeper", category := "goalkeeper",
     positions := ["GK"],
     metrics := [("Exits per 90", (25/100 : ℚ)),
      ("Accurate passes, %", (20/100 : ℚ)),
      ("Accurate long passes, %", (15/100 : ℚ)),
      ("Save rate, %", (15/100 : ℚ)),
      ("Prevented goals per 90", (10/100 : ℚ)),
      ("Aerial duels per 90", (10/100 : ℚ)),
      ("Passes per 90", (5/100 : ℚ))],
     description := "Gardien libéro qui sort de sa surface et participe au jeu" }),
  ("Ball-Playing Goalkeeper",
   { name := "Ball-Playing Goalkeeper", category := "goalkeeper",
     positions := ["GK"],
     metrics := [("Accurate passes, %", (25/100 : ℚ)),
      ("Passes per 90", (20/100 : ℚ)),
      ("Accurate long passes, %", (15/100 : ℚ)),
      ("Save rate, %", (15/100 : ℚ)),
      ("Progressive passes per 90", (10/100 : ℚ)),
      ("Accurate short / medium passes, %", (10/100 : ℚ)),
      ("Prevented goals per 90", (5/100 : ℚ))],
     description := "Gardien moderne excellent dans la relance" }),
  ("Defensive CB",
   { name := "Defensive CB", category := "defender",
     positions := ["CB", "LCB", "RCB"],
     metrics := [("Defensive duels won, %", (20/100 : ℚ)),
      ("Aerial duels won, %", (20/100 : ℚ)),
      ("PAdj Interceptions", (15/100 : ℚ)),
      ("Shots blocked per 90", (12/100 : ℚ)),
      ("Successful defensive actions per 90", (12/100 : ℚ)),
      ("Duels won, %", (10/100 : ℚ)),
      ("Sliding tackles per 90", (6/100 : ℚ)),
      ("Fouls per 90", (-(5/100) : ℚ))],
     description := "Défenseur central robuste et dominant dans les duels" }),
  ("Ball-Playing CB",
   { name := "Ball-Playing CB", category := "defender",
     positions := ["CB", "LCB", "RCB"],
     metrics := [("Progressive passes per 90", (22/100 : ℚ)),
      ("Accurate passes, %", (18/100 : ℚ)),
      ("Accurate long passes, %", (15/100 : ℚ)),
      ("Passes to final third per 90", (12/100 : ℚ)),
      ("Defensive duels won, %", (12/100 : ℚ)),
      ("Passes per 90", (8/100 : ℚ)),
      ("PAdj Interceptions", (8/100 : ℚ)),
      ("Accurate forward passes, %", (5/100 : ℚ))],
     description := "Défenseur technique excellent dans la relance" }),
  ("Wide CB",
   { name := "Wide CB", category := "defender",
     positions := ["CB", "LCB", "RCB"],
     metrics := [("Progressive runs per 90", (20/100 : ℚ)),
      ("Progressive passes per 90", (18/100 : ℚ)),
      ("Defensive duels won, %", (15/100 : ℚ)),
      ("Accurate passes, %", (12/100 : ℚ)),
      ("Aerial duels won, %", (12/100 : ℚ)),
      ("Dribbles per 90", (8/100 : ℚ)),
      ("Successful defensive actions per 90", (10/100 : ℚ)),
      ("PAdj Interceptions", (5/100 : ℚ))],
     description := "Défenseur central capable de jouer large en 3 défenseurs" }),
  ("Attacking RB",
   { name := "Attacking RB", category := "defender",
     positions := ["RB", "RWB"],
     metrics := [("xA per 90", (18/100 : ℚ)),
      ("Key passes per 90", (15/100 : ℚ)),
      ("Accurate crosses, %", (14/100 : ℚ)),
      ("Progressive runs per 90", (14/100 : ℚ)),
      ("Crosses per 90", (10/100 : ℚ)),
      ("Dribbles per 90", (8/100 : ℚ)),
      ("Defensive duels won, %", (10/100 : ℚ)),
      ("Successful dribbles, %", (6/100 : ℚ)),
      ("Deep completions per 90", (5/100 : ℚ))],
     description := "Latéral droit offensif apportant le surnombre" }),
  ("Attacking LB",
   { name := "Attacking LB", category := "defender",
     positions := ["LB", "LWB"],
     metrics := [("xA per 90", (18/100 : ℚ)),
      ("Key passes per 90", (15/100 : ℚ)),
      ("Accurate crosses, %", (14/100 : ℚ)),
      ("Progressive runs per 90", (14/100 : ℚ)),
      ("Crosses per 90", (10/100 : ℚ)),
      ("Dribbles per 90", (8/100 : ℚ)),
      ("Defensive duels won, %", (10/100 : ℚ)),
      ("Successful dribbles, %", (6/100 : ℚ)),
      ("Deep completions per 90", (5/100 : ℚ))],
     description := "Latéral gauche offensif moderne" }),
  ("Defensive RB",
   { name := "Defensive RB", category := "defender",
     positions := ["RB", "RWB"],
     metrics := [("Defensive duels won, %", (25/100 : ℚ)),
      ("PAdj Interceptions", (20/100 : ℚ)),
      ("Aerial duels won, %", (15/100 : ℚ)),
      ("Accurate passes, %", (15/100 : ℚ)),
      ("Successful defensive actions per 90", (12/100 : ℚ)),
      ("Duels won, %", (8/100 : ℚ)),
      ("Fouls per 90", (-(5/100) : ℚ))],
     description := "Latéral droit défensif solide" }),
  ("Defensive LB",
   { name := "Defensive LB", category := "defender",
     positions := ["LB", "LWB"],
     metrics := [("Defensive duels won, %", (25/100 : ℚ)),
      ("PAdj Interceptions", (20/100 : ℚ)),
      ("Aerial duels won, %", (15/100 : ℚ)),
      ("Accurate passes, %", (15/100 : ℚ)),
      ("Successful defensive actions per 90", (12/100 : ℚ)),
      ("Duels won, %", (8/100 : ℚ)),
      ("Fouls per 90", (-(5/100) : ℚ))],
     description := "Latéral gauche défensif fiable" }),
  ("Inverted Fullback",
   { name := "Inverted Fullback", category := "defender",
     positions := ["RB", "LB", "RWB", "LWB"],
     metrics := [("Progressive passes per 90", (22/100 : ℚ)),
      ("Passes per 90", (18/100 : ℚ)),
      ("Accurate passes, %", (15/100 : ℚ)),
      ("Key passes per 90", (12/100 : ℚ)),
      ("PAdj Interceptions", (12/100 : ℚ)),
      ("Passes to final third per 90", (10/100 : ℚ)),
      ("Accurate short / medium passes, %", (6/100 : ℚ)),
      ("Defensive duels won, %", (5/100 : ℚ))],
     description := "Latéral rentrant dans l\\" }),
  ("Defensive Mid",
   { name := "Defensive Mid", category := "midfielder",
     positions := ["DMF", "LDMF", "RDMF"],
     metrics := [("PAdj Interceptions", (22/100 : ℚ)),
      ("Defensive duels won, %", (20/100 : ℚ)),
      ("Successful defensive actions per 90", (18/100 : ℚ)),
      ("Aerial duels won, %", (12/100 : ℚ)),
      ("Accurate passes, %", (10/100 : ℚ)),
      ("Duels per 90", (8/100 : ℚ)),
      ("Shots blocked per 90", (5/100 : ℚ)),
      ("Fouls per 90", (-(5/100) : ℚ))],
     description := "Sentinelle récupératrice devant la défense" }),
  ("Deep-Lying Playmaker",
   { name := "Deep-Lying Playmaker", category := "midfielder",
     positions := ["DMF", "LDMF", "RDMF", "LCMF", "RCMF"],
     metrics := [("Progressive passes per 90", (22/100 : ℚ)),
      ("Passes per 90", (18/100 : ℚ)),
      ("Accurate passes, %", (15/100 : ℚ)),
      ("Passes to final third per 90", (12/100 : ℚ)),
      ("Accurate long passes, %", (10/100 : ℚ)),
      ("Key passes per 90", (8/100 : ℚ)),
      ("PAdj Interceptions", (8/100 : ℚ)),
      ("xA per 90", (7/100 : ℚ))],
     description := "Régisseur dictant le tempo depuis la base (style Busquets/Pirlo)" }),
  ("Ball-Winning Midfielder",
   { name := "Ball-Winning Midfielder", category := "midfielder",
     positions := ["DMF", "LDMF", "RDMF", "LCMF", "RCMF"],
     metrics := [("PAdj Interceptions", (25/100 : ℚ)),
      ("Successful defensive actions per 90", (22/100 : ℚ)),
      ("Defensive duels won, %", (20/100 : ℚ)),
      ("Duels per 90", (15/100 : ℚ)),
      ("Aerial duels won, %", (8/100 : ℚ)),
      ("Sliding tackles per 90", (5/100 : ℚ)),
      ("Fouls per 90", (-(5/100) : ℚ))],
     description := "Milieu récupérateur agressif (style Kanté/Ndidi)" }),
  ("Box-to-Box",
   { name := "Box-to-Box", category := "midfielder",
     positions := ["LCMF", "RCMF", "DMF", "LDMF", "RDMF"],
     metrics := [("Progressive runs per 90", (15/100 : ℚ)),
      ("Successful defensive actions per 90", (15/100 : ℚ)),
      ("xA per 90", (12/100 : ℚ)),
      ("Duels won, %", (12/100 : ℚ)),
      ("xG per 90", (10/100 : ℚ)),
      ("Passes per 90", (10/100 : ℚ)),
      ("Key passes per 90", (8/100 : ℚ)),
      ("PAdj Interceptions", (8/100 : ℚ)),
      ("Touches in box per 90", (5/100 : ℚ)),
      ("Shots per 90", (5/100 : ℚ))],
     description := "Milieu complet couvrant tout le terrain (style Bellingham/Goretzka)" }),
  ("Mezzala",
   { name := "Mezzala", category := "midfielder",
     positions := ["LCMF", "RCMF", "LAMF", "RAMF"],
     metrics := [("Progressive runs per 90", (20/100 : ℚ)),
      ("xA per 90", (18/100 : ℚ)),
      ("Key passes per 90", (15/100 : ℚ)),
      ("Dribbles per 90", (12/100 : ℚ)),
      ("xG per 90", (12/100 : ℚ)),
      ("Successful dribbles, %", (8/100 : ℚ)),
      ("Touches in box per 90", (8/100 : ℚ)),
      ("Shot assists per 90", (7/100 : ℚ))],
     description := "Milieu offensif infiltrant sur les côtés (style Barella)" }),
  ("Carrilero",
   { name := "Carrilero", category := "midfielder",
     positions := ["LCMF", "RCMF", "DMF"],
     metrics := [("Passes per 90", (20/100 : ℚ)),
      ("Accurate passes, %", (18/100 : ℚ)),
      ("Successful defensive actions per 90", (15/100 : ℚ)),
      ("Progressive passes per 90", (15/100 : ℚ)),
      ("Duels won, %", (12/100 : ℚ)),
      ("PAdj Interceptions", (10/100 : ℚ)),
      ("Passes to final third per 90", (10/100 : ℚ))],
     description := "Milieu relayeur équilibré faisant la liaison" }),
  ("Advanced Playmaker",
   { name := "Advanced Playmaker", category := "midfielder",
     positions := ["AMF", "LAMF", "RAMF"],
     metrics := [("xA per 90", (22/100 : ℚ)),
      ("Key passes per 90", (18/100 : ℚ)),
      ("Shot assists per 90", (15/100 : ℚ)),
      ("Progressive passes per 90", (12/100 : ℚ)),
      ("Deep completions per 90", (10/100 : ℚ)),
      ("Passes to penalty area per 90", (8/100 : ℚ)),
      ("Through passes per 90", (8/100 : ℚ)),
      ("Smart passes per 90", (7/100 : ℚ))],
     description := "Meneur de jeu créatif dans les 30 derniers mètres (style De Bruyne/Özil)" }),
  ("Shadow Striker",
   { name := "Shadow Striker", category := "midfielder",
     positions := ["AMF", "LAMF", "RAMF", "CF"],
     metrics := [("xG per 90", (25/100 : ℚ)),
      ("Goals per 90", (20/100 : ℚ)),
      ("Shots per 90", (15/100 : ℚ)),
      ("Touches in box per 90", (15/100 : ℚ)),
      ("Shots on target, %", (10/100 : ℚ)),
      ("Offensive duels won, %", (8/100 : ℚ)),
      ("xA per 90", (7/100 : ℚ))],
     description := "Second attaquant se projetant dans la surface (style Müller)" }),
  ("Trequartista",
   { name := "Trequartista", category := "midfielder",
     positions := ["AMF", "LAMF", "RAMF"],
     metrics := [("xA per 90", (20/100 : ℚ)),
      ("xG per 90", (18/100 : ℚ)),
      ("Key passes per 90", (15/100 : ℚ)),
      ("Dribbles per 90", (12/100 : ℚ)),
      ("Shot assists per 90", (10/100 : ℚ)),
      ("Successful dribbles, %", (10/100 : ℚ)),
      ("Through passes per 90", (8/100 : ℚ)),
      ("Touches in box per 90", (7/100 : ℚ))],
     description := "Fantaisiste libre créateur et buteur (style Dybala/Riquelme)" }),
  ("Inside Forward",
   { name := "Inside Forward", category := "attacker",
     positions := ["LW", "RW", "LWF", "RWF", "LAMF", "RAMF"],
     metrics := [("xG per 90", (22/100 : ℚ)),
      ("Goals per 90", (18/100 : ℚ)),
      ("Shots per 90", (12/100 : ℚ)),
      ("Shots on target, %", (12/100 : ℚ)),
      ("Dribbles per 90", (10/100 : ℚ)),
      ("Touches in box per 90", (10/100 : ℚ)),
      ("Successful dribbles, %", (8/100 : ℚ)),
      ("Non-penalty goals per 90", (8/100 : ℚ))],
     description := "Ailier rentrant buteur coupant vers le but (style Salah/Robben)" }),
  ("Inverted Winger",
   { name := "Inverted Winger", category := "attacker",
     positions := ["LW", "RW", "LWF", "RWF", "LAMF", "RAMF"],
     metrics := [("xA per 90", (20/100 : ℚ)),
      ("Key passes per 90", (18/100 : ℚ)),
      ("Progressive passes per 90", (15/100 : ℚ)),
      ("Dribbles per 90", (12/100 : ℚ)),
      ("Shot assists per 90", (10/100 : ℚ)),
      ("Passes to penalty area per 90", (10/100 : ℚ)),
      ("Through passes per 90", (8/100 : ℚ)),
      ("Successful dribbles, %", (7/100 : ℚ))],
     description := "Ailier inversé créateur orienté passe (style Messi/Griezmann)" }),
  ("Traditional Winger",
   { name := "Traditional Winger", category := "attacker",
     positions := ["LW", "RW", "LWF", "RWF"],
     metrics := [("Accurate crosses, %", (20/100 : ℚ)),
      ("Crosses per 90", (18/100 : ℚ)),
      ("xA per 90", (15/100 : ℚ)),
      ("Dribbles per 90", (15/100 : ℚ)),
      ("Successful dribbles, %", (12/100 : ℚ)),
      ("Progressive runs per 90", (10/100 : ℚ)),
      ("Deep completions per 90", (5/100 : ℚ)),
      ("Key passes per 90", (5/100 : ℚ))],
     description := "Ailier débordant classique qui centre (style Hakimi/TAA)" }),
  ("Wide Playmaker",
   { name := "Wide Playmaker", category := "attacker",
     positions := ["LW", "RW", "LWF", "RWF", "LAMF", "RAMF"],
     metrics := [("xA per 90", (22/100 : ℚ)),
      ("Key passes per 90", (18/100 : ℚ)),
      ("Progressive passes per 90", (15/100 : ℚ)),
      ("Shot assists per 90", (12/100 : ℚ)),
      ("Passes to penalty area per 90", (10/100 : ℚ)),
      ("Passes per 90", (8/100 : ℚ)),
      ("Through passes per 90", (8/100 : ℚ)),
      ("Accurate passes, %", (7/100 : ℚ))],
     description := "Ailier créateur organisateur depuis l\\" }),
  ("Advanced Striker",
   { name := "Advanced Striker", category := "attacker",
     positions := ["CF"],
     metrics := [("xG per 90", (22/100 : ℚ)),
      ("Goals per 90", (18/100 : ℚ)),
      ("Shots on target, %", (15/100 : ℚ)),
      ("Touches in box per 90", (12/100 : ℚ)),
      ("Offensive duels won, %", (10/100 : ℚ)),
      ("Shots per 90", (8/100 : ℚ)),
      ("Head goals per 90", (8/100 : ℚ)),
      ("Non-penalty goals per 90", (7/100 : ℚ))],
     description := "Attaquant de pointe complet (style Lewandowski/Haaland)" }),
  ("Poacher",
   { name := "Poacher", category := "attacker",
     positions := ["CF"],
     metrics := [("Goals per 90", (28/100 : ℚ)),
      ("xG per 90", (22/100 : ℚ)),
      ("Shots on target, %", (18/100 : ℚ)),
      ("Touches in box per 90", (15/100 : ℚ)),
      ("Goal conversion, %", (12/100 : ℚ)),
      ("Non-penalty goals per 90", (5/100 : ℚ))],
     description := "Renard des surfaces finisseur (style Inzaghi/Chicharito)" }),
  ("Target Man",
   { name := "Target Man", category := "attacker",
     positions := ["CF"],
     metrics := [("Aerial duels won, %", (25/100 : ℚ)),
      ("Duels won, %", (18/100 : ℚ)),
      ("xG per 90", (15/100 : ℚ)),
      ("xA per 90", (12/100 : ℚ)),
      ("Head goals per 90", (12/100 : ℚ)),
      ("Offensive duels won, %", (10/100 : ℚ)),
      ("Key passes per 90", (8/100 : ℚ))],
     description := "Attaquant pivot physique point d\\" }),
  ("False 9",
   { name := "False 9", category := "attacker",
     positions := ["CF", "AMF"],
     metrics := [("xA per 90", (22/100 : ℚ)),
      ("Key passes per 90", (18/100 : ℚ)),
      ("Progressive passes per 90", (15/100 : ℚ)),
      ("Dribbles per 90", (12/100 : ℚ)),
      ("xG per 90", (10/100 : ℚ)),
      ("Shot assists per 90", (10/100 : ℚ)),
      ("Passes to penalty area per 90", (8/100 : ℚ)),
      ("Through passes per 90", (5/100 : ℚ))],
     description := "Faux 9 décrochant créateur (style Messi/Firmino)" }),
  ("Pressing Forward",
   { name := "Pressing Forward", category := "attacker",
     positions := ["CF", "LW", "RW"],
     metrics := [("Successful defensive actions per 90", (22/100 : ℚ)),
      ("xG per 90", (18/100 : ℚ)),
      ("Duels per 90", (18/100 : ℚ)),
      ("Progressive runs per 90", (15/100 : ℚ)),
      ("Offensive duels won, %", (12/100 : ℚ)),
      ("xA per 90", (8/100 : ℚ)),
      ("Fouls suffered per 90", (7/100 : ℚ))],
     description := "Attaquant presseur travailleur (style Firmino/Luis Diaz)" }),
  ("Complete Forward",
   { name := "Complete Forward", category := "attacker",
     positions := ["CF"],
     metrics := [("xG per 90", (16/100 : ℚ)),
      ("xA per 90", (14/100 : ℚ)),
      ("Goals per 90", (12/100 : ℚ)),
      ("Key passes per 90", (12/100 : ℚ)),
      ("Aerial duels won, %", (12/100 : ℚ)),
      ("Dribbles per 90", (10/100 : ℚ)),
      ("Shots on target, %", (8/100 : ℚ)),
      ("Offensive duels won, %", (8/100 : ℚ)),
      ("Touches in box per 90", (8/100 : ℚ))],
     description := "Attaquant complet polyvalent (style Benzema/Kane)" })
]

/-- One line of a role-score breakdown. -/
structure BreakdownEntry where
  metric : String
  value : ℚ
  weight : ℚ
  contribution : ℚ
deriving DecidableEq

/-- The detailed result of scoring a player against a role. -/
structure RoleScoreResult where
  role : String
  rawScore : ℚ
  normalizedScore : ℤ
  percentile : ℤ
  breakdown : List BreakdownEntry
deriving DecidableEq

/-- The weighted linear raw score of a player for a role definition. -/
def rawRoleScore (player : PlayerData) (d : RoleDefinition) : ℚ :=
  (d.metrics.map (fun mw => getMetricValue player mw.1 * mw.2)).sum

/-- The per-metric breakdown entries of a role score, in role metric order. -/
def breakdownEntries (player : PlayerData) (d : RoleDefinition) : List BreakdownEntry :=
  d.metrics.map (fun mw =>
    { metric := mw.1,
      value := getMetricValue player mw.1,
      weight := mw.2,
      contribution := toFixed3 (getMetricValue player mw.1 * mw.2) })

/-- Score of a player for a role; an unknown role scores 0.  With
normalization requested and a positive recorded maximum for the role, the
score is rescaled to a rounded 0-100 value; otherwise it is the raw score
rounded to two decimals. -/
def calculateRoleScore (player : PlayerData) (role : String) (normalize : Bool)
    (maxScores : Option (List (String × ℚ))) : ℚ :=
  match ROLE_DEFINITIONS.lookup role with
  | none => 0
  | some d =>
      let score := rawRoleScore player d
      match normalize, maxScores with
      | true, some ms =>
          if 0 < (ms.lookup role).getD 0 then
            ((round (score / (ms.lookup role).getD 0 * 100) : ℤ) : ℚ)
          else toFixed2 score
      | _, _ => toFixed2 score

/-- Detailed role score of a player against a cohort: raw score, cohort
normalized score, cohort percentile and sorted breakdown.  An unknown role
yields no result. -/
def calculateDetailedRoleScore (player : PlayerData) (role : String)
    (cohort : List PlayerData) : Option RoleScoreResult :=
  match ROLE_DEFINITIONS.lookup role with
  | none => none
  | some d =>
      let rawScore := rawRoleScore player d
      let breakdown := breakdownEntries player d
      let cohortScores := cohort.map (fun p => calculateRoleScore p role false none)
      let maxScore := cohortScores.foldr max 1
      let normalizedScore := round (rawScore / maxScore * 100)
      let sortedScores := List.insertionSort (· ≤ ·) cohortScores
      let rank := (sortedScores.filter (fun s => s < rawScore)).length
      let percentile := round (((rank : ℚ) / (cohortScores.length : ℚ)) * 100)
      some { role := role,
             rawScore := toFixed2 rawScore,
             normalizedScore := normalizedScore,
             percentile := percentile,
             breakdown :=
               List.insertionSort (fun a b => b.contribution ≤ a.contribution) breakdown }

end ScoringUtils


namespace SimilarityService

open PlayerService

/-- Weights of metric categories used by the weighted similarity distance. -/
def METRIC_CATEGORY_WEIGHTS : List (String × ℚ) := [
  ("attacking", (10/10 : ℚ)),
  ("defensive", (10/10 : ℚ)),
  ("passing", (8/10 : ℚ)),
  ("physical", (6/10 : ℚ)),
  ("possession", (9/10 : ℚ))
]

/-- Mapping from metric names to their category. -/
def METRIC_CATEGORIES : List (String × String) := [
  ("xG", "attacking"),
  ("xG per 90", "attacking"),
  ("Goals", "attacking"),
  ("Goals per 90", "attacking"),
  ("Non-penalty goals per 90", "attacking"),
  ("Shots per 90", "attacking"),
  ("Shots on target, %", "attacking"),
  ("Touches in box per 90", "attacking"),
  ("xA", "attacking"),
  ("xA per 90", "attacking"),
  ("Assists", "attacking"),
  ("Key passes per 90", "attacking"),
  ("Shot assists per 90", "attacking"),
  ("Deep completions per 90", "attacking"),
  ("Successful defensive actions per 90", "defensive"),
  ("Defensive duels won, %", "defensive"),
  ("Aerial duels won, %", "defensive"),
  ("PAdj Interceptions", "defensive"),
  ("PAdj Sliding tackles", "defensive"),
  ("Shots blocked per 90", "defensive"),
  ("Passes per 90", "passing"),
  ("Accurate passes, %", "passing"),
  ("Progressive passes per 90", "passing"),
  ("Passes to final third per 90", "passing"),
  ("Accurate long passes, %", "passing"),
  ("Accurate crosses, %", "passing"),
  ("Dribbles per 90", "possession"),
  ("Successful dribbles, %", "possession"),
  ("Progressive runs per 90", "possession"),
  ("Offensive duels won, %", "possession"),
  ("Duels won, %", "physical"),
  ("Duels per 90", "physical")
]

/-- The selectable distance algorithms. -/
inductive SimAlgorithm
  | euclidean
  | cosine
  | manhattan
  | weighted
deriving DecidableEq

/-- Options of a similarity search, with the source defaults. -/
structure SimilarityOptions where
  maxResults : ℕ := 10
  samePositionOnly : Bool := false
  excludeSameTeam : Bool := false
  minMinutes : ℚ := 450
  customWeights : List (String × ℚ) := []
  algorithm : SimAlgorithm := SimAlgorithm.euclidean

/-- One ranked similarity result. -/
structure SimilarityResult where
  player : PlayerData
  score : ℤ
  distance : ℝ
  matchedMetrics : ℕ
  breakdown : List (String × ℚ)

/-- JavaScript's value-or-default on a possibly absent number: an absent or
zero (falsy) value falls back to the default. -/
def jsOr (o : Option ℚ) (d : ℚ) : ℚ :=
  if o.getD 0 = 0 then d else o.getD 0

/-- The comma-separated position field split into trimmed codes. -/
def splitPositions (s : String) : List String :=
  (s.splitOn ",").map (·.trim)

/-- The normalized value of one metric of one player against bounds. -/
def normalizedMetric (p : PlayerData) (bounds : String → MetricBounds)
    (key : String) : ℚ :=
  normalizeValue (getMetricValue p key) (bounds key)

/-- Plain Euclidean distance over normalized metric vectors. -/
noncomputable def euclideanDistance (playerA playerB : PlayerData)
    (metricKeys : List String) (bounds : String → MetricBounds) : ℝ :=
  Real.sqrt (((metricKeys.map (fun key =>
    (normalizedMetric playerA bounds key - normalizedMetric playerB bounds key) ^ 2)).sum : ℚ))

/-- The per-metric weight used by the weighted Euclidean distance: a custom
weight when present and non-zero, else the category weight of the metric
when the metric has a category, else 1. -/
def weightedMetricWeight (customWeights : List (String × ℚ)) (key : String) : ℚ :=
  let cw := customWeights.lookup key
  match METRIC_CATEGORIES.lookup key with
  | some category =>
      if cw.getD 0 = 0 then jsOr (METRIC_CATEGORY_WEIGHTS.lookup category) 1
      else jsOr cw 1
  | none => jsOr cw 1

/-- Weighted Euclidean distance with its per-metric breakdown. -/
noncomputable def weightedEuclideanDistance (playerA playerB : PlayerData)
    (metricKeys : List String) (bounds : String → MetricBounds)
    (customWeights : List (String × ℚ)) : ℝ × List (String × ℚ) :=
  let diffs := metricKeys.map (fun key =>
    normalizedMetric playerA bounds key - normalizedMetric playerB bounds key)
  let weights := metricKeys.map (fun key => weightedMetricWeight customWeights key)
  let sumWeightedSquaredDiff := ((diffs.zip weights).map (fun dw => dw.1 ^ 2 * dw.2)).sum
  let totalWeight := weights.sum
  -- Math.sqrt (d ^ 2) equals the absolute value of d
  ( Real.sqrt ((sumWeightedSquaredDiff / (if totalWeight = 0 then 1 else totalWeight) : ℚ)),
    metricKeys.map (fun key =>
      (key, toFixed3 |normalizedMetric playerA bounds key - normalizedMetric playerB bounds key|)) )

/-- Manhattan distance: weighted absolute differences, divided by the
number of metrics. -/
def manhattanDistance (playerA playerB : PlayerData) (metricKeys : List String)
    (bounds : String → MetricBounds) (weights : List (String × ℚ)) : ℚ :=
  ((metricKeys.map (fun key =>
    |normalizedMetric playerA bounds key - normalizedMetric playerB bounds key| *
      jsOr (weights.lookup key) 1)).sum) / metricKeys.length

/-- Cosine distance: one minus the cosine similarity, maximal when a vector
is zero. -/
noncomputable def cosineSimilarity (playerA playerB : PlayerData)
    (metricKeys : List String) (bounds : String → MetricBounds) : ℝ :=
  let dotProduct := (metricKeys.map (fun key =>
    normalizedMetric playerA bounds key * normalizedMetric playerB bounds key)).sum
  let normA := (metricKeys.map (fun key => normalizedMetric playerA bounds key ^ 2)).sum
  let normB := (metricKeys.map (fun key => normalizedMetric playerB bounds key ^ 2)).sum
  let denominator := Real.sqrt (normA : ℚ) * Real.sqrt (normB : ℚ)
  if denominator = 0 then 1 else 1 - ((dotProduct : ℚ) : ℝ) / denominator

/-- Conversion of a distance into a 0-100 similarity score, with the 0.6
spread factor over the maximal theoretical distance sqrt n. -/
noncomputable def similarityScore (distance : ℝ) (metricCount : ℕ) : ℤ :=
  max 0 (round ((100 : ℝ) * (1 - distance / (Real.sqrt metricCount * (6 / 10)))))

/-- The candidate filter of a similarity search: drops the reference player
itself, optionally restricts to overlapping positions and other teams, and
enforces the minimum minutes threshold. -/
def candidateFilter (referencePlayer : PlayerData) (options : SimilarityOptions)
    (p : PlayerData) : Bool :=
  !(p.Player = referencePlayer.Player ∧ p.Team = referencePlayer.Team) &&
  (!options.samePositionOnly ||
    (splitPositions referencePlayer.Position).any
      (fun rp => (splitPositions p.Position).contains rp)) &&
  (!options.excludeSameTeam || !(p.Team = referencePlayer.Team : Bool)) &&
  !(getMetricValue p "Minutes played" < options.minMinutes : Bool)

/-- Similarity search: filter the candidates, normalize every numeric
metric against the full candidate pool, compute the selected distance,
convert it to a score, and return the top results by descending score. -/
noncomputable def findSimilarPlayers (referencePlayer : PlayerData)
    (candidates : List PlayerData) (options : SimilarityOptions) :
    List SimilarityResult :=
  let filteredCandidates := candidates.filter (candidateFilter referencePlayer options)
  let metricKeys := extractNumericMetricKeys candidates
  let bounds : String → MetricBounds := fun key => calculateMetricBounds candidates key
  let results := filteredCandidates.map (fun candidate =>
    let distanceAndBreakdown : ℝ × List (String × ℚ) :=
      match options.algorithm with
      | SimAlgorithm.cosine =>
          (cosineSimilarity referencePlayer candidate metricKeys bounds, [])
      | SimAlgorithm.manhattan =>
          (((manhattanDistance referencePlayer candidate metricKeys bounds
              options.customWeights : ℚ) : ℝ), [])
      | SimAlgorithm.weighted =>
          weightedEuclideanDistance referencePlayer candidate metricKeys bounds
            options.customWeights
      | SimAlgorithm.euclidean =>
          (euclideanDistance referencePlayer candidate metricKeys bounds, [])
    { player := candidate,
      score := similarityScore distanceAndBreakdown.1 metricKeys.length,
      distance := distanceAndBreakdown.1,
      matchedMetrics := metricKeys.length,
      breakdown := distanceAndBreakdown.2 })
  (List.insertionSort (fun a b => b.score ≤ a.score) results).take options.maxResults

end SimilarityService


namespace AnalyticsService

open PlayerService

/-- Clustering configuration. -/
structure ClusterConfig where
  k : ℕ
  maxIterations : ℕ
  metrics : List String
deriving DecidableEq

/-- One output cluster. -/
structure ClusterResult where
  clusterId : ℕ
  centroid : List ℚ
  players : List PlayerData
  size : ℕ
  label : String

/-- Euclidean distance between two equal-length normalized vectors. -/
noncomputable def euclideanDistance (a b : List ℚ) : ℝ :=
  Real.sqrt ((((a.zip b).map (fun p => (p.1 - p.2) ^ 2)).sum : ℚ))

/-- Index of the nearest centroid to a vector: a running minimum starting
from index 0 and an infinite distance (modelled by none). -/
noncomputable def nearestCentroidIdx (centroids : List (List ℚ)) (v : List ℚ) : ℕ :=
  (centroids.enum.foldl (fun (acc : ℕ × Option ℝ) (ic : ℕ × List ℚ) =>
    let dist := euclideanDistance v ic.2
    match acc.2 with
    | none => (ic.1, some dist)
    | some m => if dist < m then (ic.1, some dist) else acc) (0, none)).1

/-- Assignment of every vector to its nearest centroid. -/
noncomputable def assignStep (centroids : List (List ℚ)) (vectors : List (List ℚ)) :
    List ℕ :=
  vectors.map (nearestCentroidIdx centroids)

/-- Recomputation of the centroids as per-dimension means of their assigned
vectors, keeping a centroid unchanged when its cluster is empty. -/
def updateCentroids (centroids : List (List ℚ)) (vectors : List (List ℚ))
    (assignments : List ℕ) : List (List ℚ) :=
  centroids.enum.map (fun ic =>
    let clusterVectors := ((vectors.zip assignments).filter
      (fun va => va.2 = ic.1)).map Prod.fst
    match clusterVectors with
    | [] => ic.2
    | v0 :: _ =>
        v0.enum.map (fun di =>
          ((clusterVectors.map (fun w => w.getD di.1 0)).sum) / clusterVectors.length))

/-- The assignment/update loop of k-means, fuelled by the remaining
iteration budget; the third component counts the rounds executed. -/
noncomputable def kMeansLoop (vectors : List (List ℚ)) :
    ℕ → List ℕ → List (List ℚ) → List ℕ × List (List ℚ) × ℕ
  | 0, assignments, centroids => (assignments, centroids, 0)
  | fuel + 1, assignments, centroids =>
      let newAssignments := assignStep centroids vectors
      if newAssignments = assignments then (assignments, centroids, 1)
      else
        let next := kMeansLoop vectors fuel newAssignments
          (updateCentroids centroids vectors newAssignments)
        (next.1, next.2.1, next.2.2 + 1)

/-- Descriptive label of a cluster: the metrics whose cluster mean exceeds
the 0.7 normalized threshold, else the dominant first-listed position. -/
def generateClusterLabel (players : List PlayerData) (metrics : List String)
    (bounds : String → MetricBounds) : String :=
  if players = [] then "Empty"
  else
    let clusterMean := fun m => listMean (players.map (fun p => getMetricValue p m))
    let strengths := (metrics.filter
        (fun m => (7 : ℚ) / 10 < normalizeValue (clusterMean m) (bounds m))).map
      (fun m => (m.splitOn " ").headD "")
    if strengths ≠ [] then
      "High " ++ String.intercalate "/" (strengths.take 2)
    else
      let posCounts : List (String × ℕ) := players.foldl (fun acc p =>
        let t := (((p.Position.splitOn ",").headD "").trim)
        let pos := if t = "" then "Unknown" else t
        if (acc.lookup pos).isSome then
          acc.map (fun q => if q.1 = pos then (q.1, q.2 + 1) else q)
        else acc ++ [(pos, 1)]) []
      match (List.insertionSort (fun a b => b.2 ≤ a.2) posCounts).head? with
      | some dominant => dominant.1 ++ " Group"
      | none => "Mixed"

/-- The full k-means run, also reporting the number of rounds executed.
The randomized initial shuffle of the vectors is a parameter, since the
source draws it from an unseeded random comparator. -/
noncomputable def kMeansRun (data : List PlayerData) (config : ClusterConfig)
    (shuffle : List (PlayerData × List ℚ) → List (PlayerData × List ℚ)) :
    List ClusterResult × ℕ :=
  if data.length < config.k ∨ config.metrics.length = 0 then ([], 0)
  else
    let bounds : String → MetricBounds := fun m => calculateMetricBounds data m
    let playerVectors : List (PlayerData × List ℚ) := data.map (fun p =>
      (p, config.metrics.map (fun m => normalizeValue (getMetricValue p m) (bounds m))))
    let shuffled := shuffle playerVectors
    let centroids0 := (shuffled.take config.k).map Prod.snd
    let assignments0 : List ℕ := List.replicate playerVectors.length 0
    let final := kMeansLoop (playerVectors.map Prod.snd) config.maxIterations
      assignments0 centroids0
    let results := final.2.1.enum.map (fun ic =>
      let clusterPlayers := (((playerVectors.map Prod.fst).zip final.1).filter
        (fun pa => pa.2 = ic.1)).map Prod.fst
      { clusterId := ic.1,
        centroid := ic.2,
        players := clusterPlayers,
        size := clusterPlayers.length,
        label := generateClusterLabel clusterPlayers config.metrics bounds })
    ( (List.insertionSort (fun a b => b.size ≤ a.size)
        (results.filter (fun r => 0 < r.size))),
      final.2.2 )

/-- K-means clustering of a player pool. -/
noncomputable def kMeansClustering (data : List PlayerData) (config : ClusterConfig)
    (shuffle : List (PlayerData × List ℚ) → List (PlayerData × List ℚ)) :
    List ClusterResult :=
  (kMeansRun data config shuffle).1

end AnalyticsService


namespace DataStore

open PlayerService

/-- Aggregated team statistics row. -/
structure TeamStats where
  team : String
  league : String
  season : String
  stats : List (String × ℚ)
deriving DecidableEq

/-- One shot event row. -/
structure ShotEvent where
  player : String
  team : String
  x : ℚ
  y : ℚ
  xG : ℚ
  result : String
  situation : String
  shotType : String
  minute : ℚ
  season : String
deriving DecidableEq

/-- The mutable store state. -/
structure DataStoreState where
  players : List PlayerData
  teams : List TeamStats
  shots : List ShotEvent
  isLoading : Bool
  errors : List String
  lastUpdated : Option String

/-- The cache of computed getters; none marks an invalidated entry. -/
structure ComputedCache where
  leagues : Option (List String)
  teams : Option (List String)
  positions : Option (List String)
  nationalities : Option (List String)
  metricKeys : Option (List String)
  metricBounds : Option (List (String × MetricBounds))
  datasetStats : Option (ℕ × ℕ × ℕ)

/-- The whole module state: data state plus computed cache.  Listener
notification does not change either, so it is not modelled. -/
structure Store where
  state : DataStoreState
  cache : ComputedCache

/-- The empty cache. -/
def emptyCache : ComputedCache :=
  { leagues := none, teams := none, positions := none, nationalities := none,
    metricKeys := none, metricBounds := none, datasetStats := none }

/-- The initial store. -/
def initialStore : Store :=
  { state := { players := [], teams := [], shots := [], isLoading := false,
               errors := [], lastUpdated := none },
    cache := emptyCache }

/-- Full cache invalidation. -/
def invalidateCache (s : Store) : Store :=
  { s with cache := emptyCache }

/-- Loading the player collection: replaces the players, stamps the store,
and invalidates the computed cache. -/
def setPlayers (players : List PlayerData) (now : String) (s : Store) : Store :=
  invalidateCache
    { s with state := { s.state with players := players, lastUpdated := some now } }

/-- Loading the team statistics: replaces the teams and stamps the store;
the computed cache is left as it is. -/
def setTeams (teams : List TeamStats) (now : String) (s : Store) : Store :=
  { s with state := { s.state with teams := teams, lastUpdated := some now } }

/-- Loading the shot events: replaces the shots and stamps the store; the
computed cache is left as it is. -/
def setShots (shots : List ShotEvent) (now : String) (s : Store) : Store :=
  { s with state := { s.state with shots := shots, lastUpdated := some now } }

/-- Cached getter of the league list. -/
def getLeagues (s : Store) : List String × Store :=
  match s.cache.leagues with
  | some v => (v, s)
  | none =>
      let v := extractLeagues s.state.players
      (v, { s with cache := { s.cache with leagues := some v } })

/-- Cached getter of the team-name list, merging the teams seen on player
rows with the teams of the team-statistics rows. -/
def getTeams (s : Store) : List String × Store :=
  match s.cache.teams with
  | some v => (v, s)
  | none =>
      let playerTeams := extractTeams s.state.players
      let statsTeams := s.state.teams.map (fun t => t.team)
      let v := List.insertionSort (· ≤ ·) ((playerTeams ++ statsTeams).dedup)
      (v, { s with cache := { s.cache with teams := some v } })

/-- Cached getter of the position list. -/
def getPositions (s : Store) : List String × Store :=
  match s.cache.positions with
  | some v => (v, s)
  | none =>
      let v := extractPositions s.state.players
      (v, { s with cache := { s.cache with positions := some v } })

/-- Cached getter of the metric bounds of the loaded players. -/
noncomputable def getMetricBounds (s : Store) : List (String × MetricBounds) × Store :=
  match s.cache.metricBounds with
  | some v => (v, s)
  | none =>
      let v := calculateAllMetricBounds s.state.players
      (v, { s with cache := { s.cache with metricBounds := some v } })

end DataStore



namespace Fixtures

/-- A one-row fixture cohort whose single metric column M has value 2. -/
def oneRow : PlayerData :=
  { Player := "P", Team := "T", Position := "GK", League := "L",
    metrics := [("M", 2)] }

/-- A goalkeeper row whose only present metric is a save rate of 1. -/
def gkOne : PlayerData :=
  { Player := "G1", Team := "T", Position := "GK", League := "L",
    metrics := [("Save rate, %", 1)] }

/-- A goalkeeper row whose raw Shot-Stopping score is one half. -/
def gkHalf : PlayerData :=
  { Player := "G2", Team := "T", Position := "GK", League := "L",
    metrics := [("Save rate, %", 5 / 3)] }

/-- A goalkeeper row whose raw Shot-Stopping score is one. -/
def gkFull : PlayerData :=
  { Player := "G3", Team := "T", Position := "GK", League := "L",
    metrics := [("Save rate, %", 10 / 3)] }

/-- A goalkeeper row with a small positive and a large negative
contribution in the Shot-Stopping role. -/
def gkNeg : PlayerData :=
  { Player := "G4", Team := "T", Position := "GK", League := "L",
    metrics := [("Save rate, %", 1), ("Conceded goals per 90", 100)] }

/-- The Shot-Stopping Goalkeeper role, as it appears at the head of the
role table (checked by lookup_shot_stopping below). -/
def ssk : ScoringUtils.RoleDefinition :=
  { name := "Shot-Stopping Goalkeeper", category := "goalkeeper",
    positions := ["GK"],
    metrics := [("Save rate, %", (30/100 : ℚ)),
      ("Prevented goals per 90", (25/100 : ℚ)),
      ("Clean sheets", (15/100 : ℚ)),
      ("Aerial duels won, %", (10/100 : ℚ)),
      ("Conceded goals per 90", (-(10/100) : ℚ)),
      ("Shots against per 90", (5/100 : ℚ)),
      ("xG against per 90", (-(5/100) : ℚ))],
    description := "Gardien spécialisé dans les arrêts réflexes" }

/-- A team-statistics row for a team B unseen among the player rows. -/
def teamB : DataStore.TeamStats :=
  { team := "B", league := "L", season := "S", stats := [] }

/-- Reference player of the similarity counterexample. -/
def simRef : PlayerData :=
  { Player := "A", Team := "TA", Position := "ST", League := "L",
    metrics := [("Goals", 0)] }

/-- Candidate player of the similarity counterexample. -/
def simCand : PlayerData :=
  { Player := "B", Team := "TB", Position := "ST", League := "L",
    metrics := [("Goals", 1)] }

/-- Similarity options selecting the Manhattan distance with a negative
custom weight and no minutes threshold. -/
def simOpts : SimilarityService.SimilarityOptions :=
  { minMinutes := 0,
    customWeights := [("Goals", -10)],
    algorithm := SimilarityService.SimAlgorithm.manhattan }

end Fixtures

/-- Modelled from the spec for comparison with the code (C3): a list of
contributions sorted by descending absolute value. -/
def sortedByAbsDesc (l : List ℚ) : Prop :=
  List.Sorted (fun a b => |b| ≤ |a|) l

-- ============================================================
-- Helper lemmas
-- ============================================================

namespace Lemmas

open PlayerService

theorem length_filter_insertionSort {α : Type} (r : α → α → Prop) [DecidableRel r]
    (p : α → Bool) (l : List α) :
    ((List.insertionSort r l).filter p).length = l.countP p := by
  rw [← List.countP_eq_length_filter]
  exact (List.perm_insertionSort r l).countP_eq p

theorem foldl_min_le_init (v : ℚ) (vs : List ℚ) : vs.foldl min v ≤ v := by
  induction vs generalizing v with
  | nil => exact le_refl v
  | cons x xs ih => exact le_trans (ih (min v x)) (min_le_left v x)

theorem init_le_foldl_max (v : ℚ) (vs : List ℚ) : v ≤ vs.foldl max v := by
  induction vs generalizing v with
  | nil => exact le_refl v
  | cons x xs ih => exact le_trans (le_max_left v x) (ih (max v x))

theorem listMin_le_listMax {l : List ℚ} (h : l ≠ []) : listMin l ≤ listMax l := by
  match l with
  | v :: vs =>
      exact le_trans (foldl_min_le_init v vs) (init_le_foldl_max v vs)

theorem foldl_min_const (v : ℚ) (vs : List ℚ) (h : ∀ x ∈ vs, x = v) :
    vs.foldl min v = v := by
  induction vs with
  | nil => rfl
  | cons x xs ih =>
      have hx : x = v := h x (List.mem_cons_self x xs)
      simp only [List.foldl_cons, hx, min_self]
      exact ih (fun y hy => h y (List.mem_cons_of_mem x hy))

theorem foldl_max_const (v : ℚ) (vs : List ℚ) (h : ∀ x ∈ vs, x = v) :
    vs.foldl max v = v := by
  induction vs with
  | nil => rfl
  | cons x xs ih =>
      have hx : x = v := h x (List.mem_cons_self x xs)
      simp only [List.foldl_cons, hx, max_self]
      exact ih (fun y hy => h y (List.mem_cons_of_mem x hy))

theorem countP_lt_add_countP_eq_le_length (v : ℚ) (l : List ℚ) :
    l.countP (fun x => x < v) + l.countP (fun x => x = v) ≤ l.length := by
  induction l with
  | nil => simp
  | cons x xs ih =>
      simp only [List.countP_cons, List.length_cons]
      by_cases h1 : x < v
      · have h2 : ¬(x = v) := fun he => absurd h1 (by rw [he]; exact lt_irrefl v)
        simp [h1, h2]
        omega
      · by_cases h2 : x = v
        · simp [h1, h2]
          omega
        · simp [h1, h2]
          omega

theorem round_nonneg {q : ℚ} (h : 0 ≤ q) : 0 ≤ round q := by
  rw [round_eq]
  exact Int.floor_nonneg.mpr (by linarith)

theorem round_le_hundred {q : ℚ} (h : q ≤ 100) : round q ≤ 100 := by
  rw [round_eq]
  have : ⌊q + 1 / 2⌋ < 101 := Int.floor_lt.mpr (by push_cast; linarith)
  omega

theorem round_clamp_comm {q : ℚ} (h0 : 0 ≤ q) (h100 : q ≤ 100) :
    round (max 0 (min 100 q)) = min 100 (max 0 (round q)) := by
  rw [min_eq_right h100, max_eq_right h0,
      max_eq_right (round_nonneg h0),
      min_eq_right (round_le_hundred h100)]

end Lemmas

-- ============================================================
-- Claim theorems
-- ============================================================

open PlayerService ScoringUtils SimilarityService AnalyticsService Lemmas

/-- C5: for every value and non-empty list, calculatePercentile is the
rounded mid-rank percentile round((countBelow + 0.5 countEqual) / total
* 100), clamped to the interval from 0 to 100; in particular the value 3
inside the list 1, 2, 3, 4 has percentile 63 (shown in the witness). -/
theorem calculatePercentile_is_clamped_midrank (v : ℚ) (l : List ℚ) (h : l ≠ []) :
    calculatePercentile v l =
      min 100 (max 0 (round
        (((l.countP (fun x => x < v) : ℚ) + (1 / 2) * (l.countP (fun x => x = v) : ℚ))
          / (l.length : ℚ) * 100))) := by
  have hlen : 0 < l.length := List.length_pos.mpr h
  have hcb := length_filter_insertionSort (α := ℚ) (· ≤ ·) (fun x => decide (x < v)) l
  have hce := length_filter_insertionSort (α := ℚ) (· ≤ ·) (fun x => decide (x = v)) l
  have hl := (List.perm_insertionSort (α := ℚ) (· ≤ ·) l).length_eq
  simp only [calculatePercentile, if_neg h, hcb, hce, hl]
  have hsum := countP_lt_add_countP_eq_le_length v l
  have h0 : (0 : ℚ) ≤
      ((l.countP (fun x => x < v) : ℚ) + (1 / 2) * (l.countP (fun x => x = v) : ℚ))
        / (l.length : ℚ) * 100 := by
    positivity
  have h100 : ((l.countP (fun x => x < v) : ℚ) + (1 / 2) * (l.countP (fun x => x = v) : ℚ))
        / (l.length : ℚ) * 100 ≤ 100 := by
    rw [div_mul_eq_mul_div, div_le_iff₀ (by exact_mod_cast hlen)]
    have : ((l.countP (fun x => x < v) : ℚ) + (l.countP (fun x => x = v) : ℚ))
        ≤ (l.length : ℚ) := by exact_mod_cast hsum
    nlinarith [Nat.cast_nonneg (α := ℚ) (l.countP (fun x => x = v))]
  exact round_clamp_comm h0 h100

/-- Witness for C5 at the documented example: percentile of 3 in
the cohort 1, 2, 3, 4 is 63. -/
theorem calculatePercentile_is_clamped_midrank_witness :
    (([1, 2, 3, 4] : List ℚ) ≠ []) ∧
    calculatePercentile 3 ([1, 2, 3, 4] : List ℚ) = 63 := by
  refine ⟨by decide, ?_⟩
  rw [calculatePercentile_is_clamped_midrank 3 [1, 2, 3, 4] (by decide)]
  norm_num [List.countP_cons, round_eq]


/-- C6: calculateMetricBounds always has max at least min; a non-empty
cohort of all-equal usable values yields max equal to min plus one; and a
cohort with no usable values yields exactly the neutral default with min 0,
max 1, mean 0 and standard deviation 1. -/
theorem calculateMetricBounds_shape (data : List PlayerData) (key : String) :
    (calculateMetricBounds data key).min ≤ (calculateMetricBounds data key).max ∧
    (metricValues data key ≠ [] →
      (∀ x ∈ metricValues data key, ∀ y ∈ metricValues data key, x = y) →
      (calculateMetricBounds data key).max = (calculateMetricBounds data key).min + 1) ∧
    (metricValues data key = [] →
      (calculateMetricBounds data key).min = 0 ∧
      (calculateMetricBounds data key).max = 1 ∧
      (calculateMetricBounds data key).mean = 0 ∧
      (calculateMetricBounds data key).stdDev = 1) := by
  by_cases h : metricValues data key = []
  · refine ⟨?_, fun hne => absurd h hne, fun _ => ?_⟩
    · simp [calculateMetricBounds, h]
    · simp [calculateMetricBounds, h]
  · have hminmax : listMin (metricValues data key) ≤ listMax (metricValues data key) :=
      listMin_le_listMax h
    refine ⟨?_, ?_, fun he => absurd he h⟩
    · simp only [calculateMetricBounds, if_neg h]
      by_cases heq : listMax (metricValues data key) = listMin (metricValues data key)
      · simp only [if_pos heq]
        linarith
      · simp only [if_neg heq]
        exact hminmax
    · intro _ hall
      match hv : metricValues data key with
      | [] => exact absurd hv h
      | v :: vs =>
          have hallv : ∀ x ∈ vs, x = v := by
            intro x hx
            exact hall x (by rw [hv]; exact List.mem_cons_of_mem v hx) v
              (by rw [hv]; exact List.mem_cons_self v vs)
          have hmin : listMin (v :: vs) = v := foldl_min_const v vs hallv
          have hmax : listMax (v :: vs) = v := foldl_max_const v vs hallv
          simp only [calculateMetricBounds, hv, if_neg (by simp : ¬(v :: vs = [])),
            hmin, hmax]
          simp

/-- Witness for C6 on a one-row cohort with a single metric value 2: the
bounds have max equal to min plus one. -/
theorem calculateMetricBounds_shape_witness :
    (metricValues [Fixtures.oneRow] "M" ≠ [] ∧
      (∀ x ∈ metricValues [Fixtures.oneRow] "M",
        ∀ y ∈ metricValues [Fixtures.oneRow] "M", x = y)) ∧
    (calculateMetricBounds [Fixtures.oneRow] "M").max =
      (calculateMetricBounds [Fixtures.oneRow] "M").min + 1 := by
  refine ⟨⟨by decide, by decide⟩, ?_⟩
  exact (calculateMetricBounds_shape [Fixtures.oneRow] "M").2.1 (by decide) (by decide)

/-- C10: the standard deviation produced by calculateMetricBounds is always
strictly positive, so the zero-deviation guard of calculateZScore never
fires on such bounds: the z-score is always the unguarded
(value - mean) / stdDev, and over a zero-variance cohort, where the
deviation falls back to 1, it degenerates to value - mean. -/
theorem calculateMetricBounds_stdDev_pos_zScore (data : List PlayerData) (key : String)
    (v : ℚ) :
    0 < (calculateMetricBounds data key).stdDev ∧
    calculateZScore v (calculateMetricBounds data key) =
      ((v : ℝ) - ((calculateMetricBounds data key).mean : ℝ)) /
        (calculateMetricBounds data key).stdDev ∧
    (listVariance (metricValues data key) = 0 →
      calculateZScore v (calculateMetricBounds data key) =
        (v : ℝ) - ((calculateMetricBounds data key).mean : ℝ)) := by
  have hpos : 0 < (calculateMetricBounds data key).stdDev := by
    by_cases h : metricValues data key = []
    · simp [calculateMetricBounds, h]
    · simp only [calculateMetricBounds, if_neg h]
      by_cases hz : Real.sqrt ((listVariance (metricValues data key) : ℚ) : ℝ) = 0
      · simp only [if_pos hz]
        norm_num
      · simp only [if_neg hz]
        exact lt_of_le_of_ne (Real.sqrt_nonneg _) (Ne.symm hz)
  have hzeq : calculateZScore v (calculateMetricBounds data key) =
      ((v : ℝ) - ((calculateMetricBounds data key).mean : ℝ)) /
        (calculateMetricBounds data key).stdDev := by
    simp only [calculateZScore, if_neg (ne_of_gt hpos)]
  refine ⟨hpos, hzeq, fun hvar => ?_⟩
  have hone : (calculateMetricBounds data key).stdDev = 1 := by
    by_cases h : metricValues data key = []
    · simp [calculateMetricBounds, h]
    · simp only [calculateMetricBounds, if_neg h]
      have hs : Real.sqrt ((listVariance (metricValues data key) : ℚ) : ℝ) = 0 := by
        rw [hvar]
        norm_num
      simp only [if_pos hs]
  rw [hzeq, hone, div_one]

/-- Witness for C10 on a one-value zero-variance cohort: the z-score of 5
equals 5 minus the mean. -/
theorem calculateMetricBounds_stdDev_pos_zScore_witness :
    listVariance (metricValues [Fixtures.oneRow] "M") = 0 ∧
    calculateZScore 5 (calculateMetricBounds [Fixtures.oneRow] "M") =
      (5 : ℝ) - ((calculateMetricBounds [Fixtures.oneRow] "M").mean : ℝ) := by
  have hvals : metricValues [Fixtures.oneRow] "M" = [2] := by decide
  have hvar : listVariance (metricValues [Fixtures.oneRow] "M") = 0 := by
    rw [hvals]
    norm_num [listVariance, listMean]
  exact ⟨hvar, (calculateMetricBounds_stdDev_pos_zScore [Fixtures.oneRow] "M" 5).2.2 hvar⟩


/-- The assignment/update loop of k-means executes at most as many rounds
as its fuel. -/
theorem kMeansLoop_rounds_le (vectors : List (List ℚ)) (fuel : ℕ)
    (assignments : List ℕ) (centroids : List (List ℚ)) :
    (kMeansLoop vectors fuel assignments centroids).2.2 ≤ fuel := by
  induction fuel generalizing assignments centroids with
  | zero => simp [kMeansLoop]
  | succ n ih =>
      simp only [kMeansLoop]
      by_cases h : assignStep centroids vectors = assignments
      · rw [if_pos h]
        exact Nat.succ_le_succ (Nat.zero_le n)
      · rw [if_neg h]
        exact Nat.succ_le_succ (ih _ _)

/-- Every cluster listed by a k-means run has at least one member. -/
theorem kMeansRun_players_nonempty (data : List PlayerData) (config : ClusterConfig)
    (shuffle : List (PlayerData × List ℚ) → List (PlayerData × List ℚ)) :
    ∀ r ∈ (kMeansRun data config shuffle).1, r.players ≠ [] := by
  intro r hr
  unfold kMeansRun at hr
  by_cases h : data.length < config.k ∨ config.metrics.length = 0
  · rw [if_pos h] at hr
    simp at hr
  · rw [if_neg h] at hr
    simp only at hr
    have hr2 := (List.perm_insertionSort (fun a b : ClusterResult => b.size ≤ a.size) _).mem_iff.mp hr
    obtain ⟨hmem, hsize⟩ := List.mem_filter.mp hr2
    have hsz : 0 < r.size := of_decide_eq_true hsize
    obtain ⟨ic, _, heq⟩ := List.mem_map.mp hmem
    intro hnil
    rw [← heq] at hsz hnil
    simp only at hsz hnil
    rw [hnil] at hsz
    simp at hsz

/-- C8: for a pool at least as large as k and a non-empty metric list,
k-means executes at most maxIterations assignment/update rounds (fewer when
the assignments stabilize), and every cluster of the returned result set
has at least one member. -/
theorem kMeansClustering_terminates_and_nonempty (data : List PlayerData)
    (config : ClusterConfig)
    (shuffle : List (PlayerData × List ℚ) → List (PlayerData × List ℚ))
    (hk : config.k ≤ data.length) (hm : config.metrics ≠ []) :
    (kMeansRun data config shuffle).2 ≤ config.maxIterations ∧
    ∀ r ∈ kMeansClustering data config shuffle, r.players ≠ [] := by
  constructor
  · unfold kMeansRun
    by_cases h : data.length < config.k ∨ config.metrics.length = 0
    · rw [if_pos h]
      exact Nat.zero_le _
    · rw [if_neg h]
      simp only
      exact kMeansLoop_rounds_le _ _ _ _
  · exact kMeansRun_players_nonempty data config shuffle

/-- Witness for C8 on a one-player pool, k = 1, a single metric and one
allowed iteration. -/
theorem kMeansClustering_terminates_and_nonempty_witness :
    ((1 : ℕ) ≤ ([Fixtures.oneRow] : List PlayerData).length ∧ (["M"] : List String) ≠ []) ∧
    ((kMeansRun [Fixtures.oneRow] { k := 1, maxIterations := 1, metrics := ["M"] } id).2 ≤ 1 ∧
      ∀ r ∈ kMeansClustering [Fixtures.oneRow]
          { k := 1, maxIterations := 1, metrics := ["M"] } id, r.players ≠ []) :=
  ⟨⟨by decide, by decide⟩,
    kMeansClustering_terminates_and_nonempty [Fixtures.oneRow]
      { k := 1, maxIterations := 1, metrics := ["M"] } id (by decide) (by decide)⟩

/-- C9: a k strictly larger than the pool size, or an empty configured
metric list, makes kMeansClustering return the empty result set. -/
theorem kMeansClustering_rejects_degenerate_config (data : List PlayerData)
    (config : ClusterConfig)
    (shuffle : List (PlayerData × List ℚ) → List (PlayerData × List ℚ))
    (h : data.length < config.k ∨ config.metrics = []) :
    kMeansClustering data config shuffle = [] := by
  have h2 : data.length < config.k ∨ config.metrics.length = 0 := by
    rcases h with h | h
    · exact Or.inl h
    · exact Or.inr (by simp [h])
  unfold kMeansClustering kMeansRun
  rw [if_pos h2]

/-- Witness for C9 on an empty pool with k = 1. -/
theorem kMeansClustering_rejects_degenerate_config_witness :
    (([] : List PlayerData).length < 1 ∨ (["M"] : List String) = []) ∧
    kMeansClustering [] { k := 1, maxIterations := 5, metrics := ["M"] } id = [] :=
  ⟨Or.inl (by decide),
    kMeansClustering_rejects_degenerate_config []
      { k := 1, maxIterations := 5, metrics := ["M"] } id (Or.inl (by decide))⟩


/-- The head role of the table, looked up by name. -/
theorem lookup_shot_stopping :
    ROLE_DEFINITIONS.lookup "Shot-Stopping Goalkeeper" = some Fixtures.ssk := rfl

/-- A non-empty fold of max with initial value 1 is the max of the list
maximum and 1. -/
theorem foldr_max_one (l : List ℚ) (h : l ≠ []) :
    l.foldr max 1 = max (listMax l) 1 := by
  match l with
  | v :: vs =>
      clear h
      induction vs generalizing v with
      | nil => rfl
      | cons x xs ih =>
          show max v ((x :: xs).foldr max 1) = max (listMax (v :: x :: xs)) 1
          rw [ih x]
          have h1 : listMax (v :: x :: xs) = max v (listMax (x :: xs)) := by
            show (x :: xs).foldl max v = _
            show xs.foldl max (max v x) = _
            rw [List.foldl_assoc]
            rfl
          rw [h1, max_assoc]

/-- Rank of a raw score inside the sorted cohort scores equals the strict
count over the unsorted cohort. -/
theorem rank_eq_countP (cohort : List PlayerData) (role : String) (raw : ℚ) :
    ((List.insertionSort (· ≤ ·)
        (cohort.map (fun p => calculateRoleScore p role false none))).filter
      (fun s => s < raw)).length =
      cohort.countP (fun q => calculateRoleScore q role false none < raw) := by
  rw [length_filter_insertionSort (α := ℚ) (· ≤ ·) _ _, List.countP_map]
  rfl

/-- Raw Shot-Stopping score of the gkOne fixture. -/
theorem rawRoleScore_gkOne : rawRoleScore Fixtures.gkOne Fixtures.ssk = 3 / 10 := by
  have e1 : getMetricValue Fixtures.gkOne "Save rate, %" = 1 := rfl
  have e2 : getMetricValue Fixtures.gkOne "Prevented goals per 90" = 0 := rfl
  have e3 : getMetricValue Fixtures.gkOne "Clean sheets" = 0 := rfl
  have e4 : getMetricValue Fixtures.gkOne "Aerial duels won, %" = 0 := rfl
  have e5 : getMetricValue Fixtures.gkOne "Conceded goals per 90" = 0 := rfl
  have e6 : getMetricValue Fixtures.gkOne "Shots against per 90" = 0 := rfl
  have e7 : getMetricValue Fixtures.gkOne "xG against per 90" = 0 := rfl
  norm_num [rawRoleScore, Fixtures.ssk, e1, e2, e3, e4, e5, e6, e7]

/-- Rounded Shot-Stopping score of the gkOne fixture. -/
theorem roleScore_gkOne :
    calculateRoleScore Fixtures.gkOne "Shot-Stopping Goalkeeper" false none = 3 / 10 := by
  simp only [calculateRoleScore, lookup_shot_stopping]
  rw [rawRoleScore_gkOne]
  norm_num [toFixed2, round_eq]

/-- Raw Shot-Stopping score of the gkHalf fixture. -/
theorem rawRoleScore_gkHalf : rawRoleScore Fixtures.gkHalf Fixtures.ssk = 1 / 2 := by
  have e1 : getMetricValue Fixtures.gkHalf "Save rate, %" = 5 / 3 := rfl
  have e2 : getMetricValue Fixtures.gkHalf "Prevented goals per 90" = 0 := rfl
  have e3 : getMetricValue Fixtures.gkHalf "Clean sheets" = 0 := rfl
  have e4 : getMetricValue Fixtures.gkHalf "Aerial duels won, %" = 0 := rfl
  have e5 : getMetricValue Fixtures.gkHalf "Conceded goals per 90" = 0 := rfl
  have e6 : getMetricValue Fixtures.gkHalf "Shots against per 90" = 0 := rfl
  have e7 : getMetricValue Fixtures.gkHalf "xG against per 90" = 0 := rfl
  norm_num [rawRoleScore, Fixtures.ssk, e1, e2, e3, e4, e5, e6, e7]

/-- Rounded Shot-Stopping score of the gkHalf fixture. -/
theorem roleScore_gkHalf :
    calculateRoleScore Fixtures.gkHalf "Shot-Stopping Goalkeeper" false none = 1 / 2 := by
  simp only [calculateRoleScore, lookup_shot_stopping]
  rw [rawRoleScore_gkHalf]
  norm_num [toFixed2, round_eq]

/-- Raw Shot-Stopping score of the gkFull fixture. -/
theorem rawRoleScore_gkFull : rawRoleScore Fixtures.gkFull Fixtures.ssk = 1 := by
  have e1 : getMetricValue Fixtures.gkFull "Save rate, %" = 10 / 3 := rfl
  have e2 : getMetricValue Fixtures.gkFull "Prevented goals per 90" = 0 := rfl
  have e3 : getMetricValue Fixtures.gkFull "Clean sheets" = 0 := rfl
  have e4 : getMetricValue Fixtures.gkFull "Aerial duels won, %" = 0 := rfl
  have e5 : getMetricValue Fixtures.gkFull "Conceded goals per 90" = 0 := rfl
  have e6 : getMetricValue Fixtures.gkFull "Shots against per 90" = 0 := rfl
  have e7 : getMetricValue Fixtures.gkFull "xG against per 90" = 0 := rfl
  norm_num [rawRoleScore, Fixtures.ssk, e1, e2, e3, e4, e5, e6, e7]

/-- Rounded Shot-Stopping score of the gkFull fixture. -/
theorem roleScore_gkFull :
    calculateRoleScore Fixtures.gkFull "Shot-Stopping Goalkeeper" false none = 1 := by
  simp only [calculateRoleScore, lookup_shot_stopping]
  rw [rawRoleScore_gkFull]
  norm_num [toFixed2, round_eq]

/-- C1 (amended): the percentile reported by calculateDetailedRoleScore is
the rounded share of the cohort scores strictly below the player's raw
score, with no half credit for tied scores:
round(countBelow / total * 100). -/
theorem detailedRoleScore_percentile_strict_rank (p : PlayerData) (role : String)
    (d : RoleDefinition) (cohort : List PlayerData)
    (hd : ROLE_DEFINITIONS.lookup role = some d) (hc : cohort ≠ []) :
    (calculateDetailedRoleScore p role cohort).map (fun r => r.percentile) =
      some (round (((cohort.countP (fun q =>
          calculateRoleScore q role false none < rawRoleScore p d) : ℚ)) /
        (cohort.length : ℚ) * 100)) := by
  simp only [calculateDetailedRoleScore, hd, Option.map_some']
  rw [rank_eq_countP cohort role (rawRoleScore p d), List.length_map]

/-- Witness for the amended C1 on the one-player cohort: the reported
percentile is 0 because no cohort score lies strictly below 3/10. -/
theorem detailedRoleScore_percentile_strict_rank_witness :
    (ROLE_DEFINITIONS.lookup "Shot-Stopping Goalkeeper" = some Fixtures.ssk ∧
      ([Fixtures.gkOne] : List PlayerData) ≠ []) ∧
    (calculateDetailedRoleScore Fixtures.gkOne "Shot-Stopping Goalkeeper"
        [Fixtures.gkOne]).map (fun r => r.percentile) = some 0 := by
  refine ⟨⟨lookup_shot_stopping, by decide⟩, ?_⟩
  rw [detailedRoleScore_percentile_strict_rank Fixtures.gkOne "Shot-Stopping Goalkeeper"
    Fixtures.ssk [Fixtures.gkOne] lookup_shot_stopping (by decide)]
  norm_num [List.countP_cons, roleScore_gkOne, rawRoleScore_gkOne, round_eq]

/-- Counterexample to C1 as stated: on a one-player cohort the raw score is
3/10 and the cohort raw scores are exactly that value, so the canonical
mid-rank percentileRank is 50, but the reported percentile is 0. -/
theorem detailedRoleScore_percentile_not_midrank :
    ([Fixtures.gkOne].map (fun q =>
        calculateRoleScore q "Shot-Stopping Goalkeeper" false none)) = [3 / 10] ∧
    (calculateDetailedRoleScore Fixtures.gkOne "Shot-Stopping Goalkeeper"
        [Fixtures.gkOne]).map (fun r => r.rawScore) = some (3 / 10) ∧
    calculatePercentile (3 / 10) [3 / 10] = 50 ∧
    (calculateDetailedRoleScore Fixtures.gkOne "Shot-Stopping Goalkeeper"
        [Fixtures.gkOne]).map (fun r => r.percentile) = some 0 := by
  refine ⟨by simp [roleScore_gkOne], ?_, ?_, ?_⟩
  · simp only [calculateDetailedRoleScore, lookup_shot_stopping, Option.map_some']
    rw [rawRoleScore_gkOne]
    norm_num [toFixed2, round_eq]
  · norm_num [calculatePercentile, List.insertionSort, List.orderedInsert, round_eq]
  · simp only [calculateDetailedRoleScore, lookup_shot_stopping,
      List.map_cons, List.map_nil, Option.map_some']
    rw [rawRoleScore_gkOne, roleScore_gkOne]
    norm_num [List.insertionSort, List.orderedInsert, round_eq]

/-- C2 (amended): the normalized score reported by
calculateDetailedRoleScore is round(100 * rawScore / max(M, 1)), where M is
the maximum of the cohort's two-decimal-rounded raw scores — the divisor is
clamped below by 1, so a cohort maximum smaller than 1 is not used as the
scale. -/
theorem detailedRoleScore_normalized_clamped_max (p : PlayerData) (role : String)
    (d : RoleDefinition) (cohort : List PlayerData)
    (hd : ROLE_DEFINITIONS.lookup role = some d) (hc : cohort ≠ []) :
    (calculateDetailedRoleScore p role cohort).map (fun r => r.normalizedScore) =
      some (round ((100 : ℚ) * rawRoleScore p d /
        max (listMax (cohort.map (fun q => calculateRoleScore q role false none))) 1)) := by
  simp only [calculateDetailedRoleScore, hd, Option.map_some']
  rw [foldr_max_one _ (by simpa using hc)]
  rw [div_mul_eq_mul_div, mul_comm]

/-- Witness for the amended C2 at the documented scenario: raw score 1/2
against a cohort whose (clamped) maximum is 1 yields normalized score 50. -/
theorem detailedRoleScore_normalized_clamped_max_witness :
    (ROLE_DEFINITIONS.lookup "Shot-Stopping Goalkeeper" = some Fixtures.ssk ∧
      ([Fixtures.gkHalf, Fixtures.gkFull] : List PlayerData) ≠ []) ∧
    (calculateDetailedRoleScore Fixtures.gkHalf "Shot-Stopping Goalkeeper"
        [Fixtures.gkHalf, Fixtures.gkFull]).map (fun r => r.normalizedScore) =
      some 50 := by
  refine ⟨⟨lookup_shot_stopping, by decide⟩, ?_⟩
  rw [detailedRoleScore_normalized_clamped_max Fixtures.gkHalf "Shot-Stopping Goalkeeper"
    Fixtures.ssk [Fixtures.gkHalf, Fixtures.gkFull] lookup_shot_stopping (by decide)]
  rw [rawRoleScore_gkHalf]
  simp only [List.map_cons, List.map_nil, roleScore_gkHalf, roleScore_gkFull]
  norm_num [listMax, round_eq]

/-- Counterexample to C2 as stated: a one-player cohort whose maximum raw
score is 1/2.  Dividing by the cohort maximum would give 100, but the code
divides by max(1/2, 1) = 1 and reports 50. -/
theorem detailedRoleScore_normalized_not_cohort_max :
    ([Fixtures.gkHalf].map (fun q =>
        calculateRoleScore q "Shot-Stopping Goalkeeper" false none)) = [1 / 2] ∧
    (calculateDetailedRoleScore Fixtures.gkHalf "Shot-Stopping Goalkeeper"
        [Fixtures.gkHalf]).map (fun r => r.rawScore) = some (1 / 2) ∧
    round ((100 : ℚ) * (1 / 2) / (1 / 2)) = 100 ∧
    (calculateDetailedRoleScore Fixtures.gkHalf "Shot-Stopping Goalkeeper"
        [Fixtures.gkHalf]).map (fun r => r.normalizedScore) = some 50 := by
  refine ⟨by simp [roleScore_gkHalf], ?_, by norm_num [round_eq], ?_⟩
  · simp only [calculateDetailedRoleScore, lookup_shot_stopping, Option.map_some']
    rw [rawRoleScore_gkHalf]
    norm_num [toFixed2, round_eq]
  · simp only [calculateDetailedRoleScore, lookup_shot_stopping,
      List.map_cons, List.map_nil, Option.map_some']
    rw [rawRoleScore_gkHalf, roleScore_gkHalf]
    norm_num [round_eq]

/-- C3 (amended): the breakdown reported by calculateDetailedRoleScore has
exactly one entry per role metric carrying its raw value, weight, and
contribution, and is sorted by descending signed contribution (stable), not
by descending absolute contribution. -/
theorem detailedRoleScore_breakdown_sorted_signed (p : PlayerData) (role : String)
    (d : RoleDefinition) (cohort : List PlayerData)
    (hd : ROLE_DEFINITIONS.lookup role = some d) :
    (((calculateDetailedRoleScore p role cohort).map (fun r => r.breakdown)).getD []).Perm
      (breakdownEntries p d) ∧
    List.Sorted (fun a b => b.contribution ≤ a.contribution)
      (((calculateDetailedRoleScore p role cohort).map (fun r => r.breakdown)).getD []) := by
  simp only [calculateDetailedRoleScore, hd, Option.map_some', Option.getD_some]
  constructor
  · exact List.perm_insertionSort _ _
  · exact @List.sorted_insertionSort ScoringUtils.BreakdownEntry
      (fun a b => b.contribution ≤ a.contribution) (fun a b => inferInstance)
      ⟨fun a b => le_total b.contribution a.contribution⟩
      ⟨fun a b c h1 h2 => le_trans h2 h1⟩ (breakdownEntries p d)

/-- Witness for the amended C3 at the gkOne fixture against an empty
cohort. -/
theorem detailedRoleScore_breakdown_sorted_signed_witness :
    (ROLE_DEFINITIONS.lookup "Shot-Stopping Goalkeeper" = some Fixtures.ssk) ∧
    ((((calculateDetailedRoleScore Fixtures.gkOne "Shot-Stopping Goalkeeper"
        []).map (fun r => r.breakdown)).getD []).Perm
      (breakdownEntries Fixtures.gkOne Fixtures.ssk) ∧
    List.Sorted (fun a b => b.contribution ≤ a.contribution)
      (((calculateDetailedRoleScore Fixtures.gkOne "Shot-Stopping Goalkeeper"
        []).map (fun r => r.breakdown)).getD [])) :=
  ⟨lookup_shot_stopping,
    detailedRoleScore_breakdown_sorted_signed Fixtures.gkOne "Shot-Stopping Goalkeeper"
      Fixtures.ssk [] lookup_shot_stopping⟩

/-- Counterexample to C3 as stated: the gkNeg fixture has a small positive
contribution 3/10 and a large negative contribution -10; the reported
breakdown lists 3/10 first and -10 last, which is not sorted by descending
absolute contribution. -/
theorem detailedRoleScore_breakdown_not_abs_sorted :
    (calculateDetailedRoleScore Fixtures.gkNeg "Shot-Stopping Goalkeeper"
        [Fixtures.gkNeg]).map (fun r => r.breakdown.map (fun e => e.contribution)) =
      some [3 / 10, 0, 0, 0, 0, 0, -10] ∧
    ¬ sortedByAbsDesc [3 / 10, 0, 0, 0, 0, 0, -10] := by
  constructor
  · have e1 : getMetricValue Fixtures.gkNeg "Save rate, %" = 1 := rfl
    have e2 : getMetricValue Fixtures.gkNeg "Prevented goals per 90" = 0 := rfl
    have e3 : getMetricValue Fixtures.gkNeg "Clean sheets" = 0 := rfl
    have e4 : getMetricValue Fixtures.gkNeg "Aerial duels won, %" = 0 := rfl
    have e5 : getMetricValue Fixtures.gkNeg "Conceded goals per 90" = 100 := rfl
    have e6 : getMetricValue Fixtures.gkNeg "Shots against per 90" = 0 := rfl
    have e7 : getMetricValue Fixtures.gkNeg "xG against per 90" = 0 := rfl
    simp only [calculateDetailedRoleScore, lookup_shot_stopping, Option.map_some']
    norm_num [breakdownEntries, Fixtures.ssk, e1, e2, e3, e4, e5, e6, e7,
      toFixed3, round_eq, List.insertionSort, List.orderedInsert]
  · intro h
    have h10 := (List.pairwise_cons.mp h).1 (-10) (by simp)
    rw [abs_of_neg (by norm_num : (-10 : ℚ) < 0),
      abs_of_pos (by norm_num : (0 : ℚ) < 3 / 10)] at h10
    norm_num at h10

/-- C4: the computed-getter cache is invalidated by setPlayers but not by
setTeams, although getTeams merges the team-statistics rows into its
cached value.  After setPlayers, a getTeams call caches the team list;
a subsequent setTeams does not invalidate it, so getTeams keeps returning
the stale pre-mutation list instead of the recomputed one. -/
theorem dataStore_stale_teams_after_setTeams :
    (DataStore.getTeams
        (DataStore.setTeams [Fixtures.teamB] "t2"
          (DataStore.getTeams
            (DataStore.setPlayers [] "t1" DataStore.initialStore)).2)).1 = [] ∧
    (DataStore.getTeams (DataStore.invalidateCache
        (DataStore.setTeams [Fixtures.teamB] "t2"
          (DataStore.getTeams
            (DataStore.setPlayers [] "t1" DataStore.initialStore)).2))).1 = ["B"] := by
  exact ⟨rfl, rfl⟩

/-- A rounded real at most 100 stays at most 100. -/
theorem round_le_hundred_real {x : ℝ} (h : x ≤ 100) : round x ≤ 100 := by
  rw [round_eq]
  have : ⌊x + 1 / 2⌋ < 101 := Int.floor_lt.mpr (by push_cast; linarith)
  omega

/-- C7 (amended): for a nonnegative distance and a positive metric count
the similarity score max(0, round(100 (1 - d / (sqrt n * 0.6)))) lies
between 0 and 100; consequently every result of findSimilarPlayers whose
distance is nonnegative (the Manhattan distance can be negative under
negative custom weights) has a score between 0 and 100 whenever the metric
key list is non-empty. -/
theorem findSimilarPlayers_score_bounds :
    (∀ (d : ℝ) (n : ℕ), 0 ≤ d → 1 ≤ n →
      similarityScore d n =
          max 0 (round ((100 : ℝ) * (1 - d / (Real.sqrt n * (6 / 10))))) ∧
        0 ≤ similarityScore d n ∧ similarityScore d n ≤ 100) ∧
    (∀ (ref : PlayerData) (cands : List PlayerData) (opts : SimilarityOptions)
        (r : SimilarityResult), r ∈ findSimilarPlayers ref cands opts →
      extractNumericMetricKeys cands ≠ [] → 0 ≤ r.distance →
      0 ≤ r.score ∧ r.score ≤ 100) := by
  have main : ∀ (d : ℝ) (n : ℕ), 0 ≤ d → 1 ≤ n →
      0 ≤ similarityScore d n ∧ similarityScore d n ≤ 100 := by
    intro d n hd hn
    constructor
    · exact le_max_left 0 _
    · have hsq : 0 < Real.sqrt n := Real.sqrt_pos.mpr (by exact_mod_cast hn)
      have ht : 0 ≤ d / (Real.sqrt n * (6 / 10)) :=
        div_nonneg hd (by positivity)
      have harg : (100 : ℝ) * (1 - d / (Real.sqrt n * (6 / 10))) ≤ 100 := by
        nlinarith
      exact max_le (by norm_num) (round_le_hundred_real harg)
  refine ⟨fun d n hd hn => ⟨rfl, main d n hd hn⟩, ?_⟩
  intro ref cands opts r hr hkeys hdist
  have hr2 := List.mem_of_mem_take hr
  have hr3 := (List.perm_insertionSort
    (fun a b : SimilarityResult => b.score ≤ a.score) _).mem_iff.mp hr2
  obtain ⟨cand, _, heq⟩ := List.mem_map.mp hr3
  have hn : 1 ≤ (extractNumericMetricKeys cands).length :=
    List.length_pos.mpr hkeys
  have hscore : r.score = similarityScore r.distance (extractNumericMetricKeys cands).length := by
    rw [← heq]
  rw [hscore]
  exact main r.distance _ hdist hn

/-- Witness for the amended C7: distance 0 over one metric scores within
bounds. -/
theorem findSimilarPlayers_score_bounds_witness :
    ((0 : ℝ) ≤ 0 ∧ (1 : ℕ) ≤ 1) ∧
    (0 ≤ similarityScore 0 1 ∧ similarityScore 0 1 ≤ 100) :=
  ⟨⟨le_refl 0, le_refl 1⟩,
    (findSimilarPlayers_score_bounds.1 0 1 (le_refl 0) (le_refl 1)).2⟩

/-- Counterexample to C7 as stated: under the Manhattan algorithm with a
negative custom weight the computed distance is -10, and the single
returned result carries score 1767, far outside 0..100. -/
theorem findSimilarPlayers_score_above_hundred :
    (findSimilarPlayers Fixtures.simRef [Fixtures.simRef, Fixtures.simCand]
        Fixtures.simOpts).map (fun r => r.score) = [1767] ∧
    ¬ ((1767 : ℤ) ≤ 100) := by
  constructor
  · have hfilter : [Fixtures.simRef, Fixtures.simCand].filter
        (candidateFilter Fixtures.simRef Fixtures.simOpts) = [Fixtures.simCand] := by
      decide
    have hkeys : extractNumericMetricKeys [Fixtures.simRef, Fixtures.simCand]
        = ["Goals"] := by decide
    have hmv : metricValues [Fixtures.simRef, Fixtures.simCand] "Goals" = [0, 1] := by
      decide
    have hbmin : (calculateMetricBounds [Fixtures.simRef, Fixtures.simCand] "Goals").min
        = 0 := by
      simp only [calculateMetricBounds, hmv]
      rw [if_neg (show ¬(([0, 1] : List ℚ) = []) by decide)]
      norm_num [listMin, listMax]
    have hbmax : (calculateMetricBounds [Fixtures.simRef, Fixtures.simCand] "Goals").max
        = 1 := by
      simp only [calculateMetricBounds, hmv]
      rw [if_neg (show ¬(([0, 1] : List ℚ) = []) by decide)]
      norm_num [listMin, listMax]
    have hnref : normalizedMetric Fixtures.simRef
        (fun key => calculateMetricBounds [Fixtures.simRef, Fixtures.simCand] key)
        "Goals" = 0 := by
      simp only [normalizedMetric, normalizeValue, hbmin, hbmax]
      norm_num [getMetricValue, Fixtures.simRef]
    have hncand : normalizedMetric Fixtures.simCand
        (fun key => calculateMetricBounds [Fixtures.simRef, Fixtures.simCand] key)
        "Goals" = 1 := by
      simp only [normalizedMetric, normalizeValue, hbmin, hbmax]
      norm_num [getMetricValue, Fixtures.simCand]
    have hman : manhattanDistance Fixtures.simRef Fixtures.simCand ["Goals"]
        (fun key => calculateMetricBounds [Fixtures.simRef, Fixtures.simCand] key)
        Fixtures.simOpts.customWeights = -10 := by
      simp only [manhattanDistance, List.map_cons, List.map_nil, hnref, hncand]
      norm_num [jsOr, Fixtures.simOpts]
    have hsc : similarityScore (((-10 : ℚ) : ℝ)) 1 = 1767 := by
      simp only [similarityScore]
      rw [Nat.cast_one, Real.sqrt_one]
      have harg : (100 : ℝ) * (1 - ((-10 : ℚ) : ℝ) / (1 * (6 / 10)))
          = (((5300 / 3 : ℚ) : ℝ)) := by
        push_cast
        ring
      rw [harg, Rat.round_cast]
      have hround : round ((5300 / 3 : ℚ)) = 1767 := by
        rw [round_eq]
        rw [show ((5300 / 3 : ℚ) + 1 / 2) = 10603 / 6 by norm_num]
        rw [Int.floor_eq_iff]
        constructor <;> norm_num
      rw [hround]
      rfl
    have halg : Fixtures.simOpts.algorithm = SimAlgorithm.manhattan := rfl
    have hmaxr : Fixtures.simOpts.maxResults = 10 := rfl
    simp only [findSimilarPlayers, hfilter, hkeys, halg, hmaxr, List.map_cons,
      List.map_nil, List.length_cons, List.length_nil, hman,
      List.insertionSort, List.orderedInsert, List.take]
    rw [hsc]
  · decide

end ScoutVision
